import Mathlib

/-!
Verification of the RISKOFF loan-risk decision engine.

This file embeds, over exact rationals (`ℚ`), the two risk-analysis
implementations of the backend:

* `backend/app/services/risk_engine.py` — `calculate_emi` and
  `calculate_risk_score` (the loan-application scoring engine);
* `backend/app/routers/admin.py` — the `/admin/risk-analysis` handler
  `analyze_risk` (the admin risk-profiling endpoint), together with the
  `risk_category` derivation used by the admin loans list.

Modelling conventions: Python floats are modelled as exact rationals;
Python `round(x, 2)` is modelled by `roundTo2` (round half to even, as
Python rounds); raising `ZeroDivisionError` is modelled by `pydiv`
returning `Except.error`.  Strings interpolated with numeric amounts in
the source (f-strings) are represented by their constant descriptive text
with the interpolated numbers elided, since no property here depends on
the digits.  The Pydantic model `RiskAnalysisRequest` is imported by
`admin.py` from `app/schemas.py` but is absent from that file; its fields
are reconstructed from their uses in the handler, and its validation
bounds (positive income, tenure at least one month) are taken from the
specification, which assigns input validation to the caller.
-/

/-- Round a rational to the nearest integer, ties to the even neighbour.
This is the rounding mode of Python `round`. -/
def rndHalfEven (q : ℚ) : ℤ :=
  if q - Rat.floor q < 1/2 then Rat.floor q
  else if 1/2 < q - Rat.floor q then Rat.floor q + 1
  else if Rat.floor q % 2 = 0 then Rat.floor q else Rat.floor q + 1

/-- Python `round(x, 2)`: round to two decimal places, ties to even. -/
def roundTo2 (q : ℚ) : ℚ := (rndHalfEven (q * 100) : ℚ) / 100

theorem rat_floor_eq_floor (q : ℚ) : Rat.floor q = ⌊q⌋ := by
  rw [Rat.floor_def, Rat.floor_def']

theorem rndHalfEven_of_lt_half {q : ℚ} {n : ℤ} (h1 : (n : ℚ) ≤ q)
    (h2 : q - n < 1/2) : rndHalfEven q = n := by
  have hfl : ⌊q⌋ = n := Int.floor_eq_iff.2 ⟨h1, by linarith⟩
  rw [rndHalfEven, rat_floor_eq_floor, hfl]
  rw [if_pos (by linarith)]

theorem rndHalfEven_of_half_lt {q : ℚ} {n : ℤ} (h1 : (n : ℚ) ≤ q)
    (h2 : 1/2 < q - n) (h3 : q < n + 1) : rndHalfEven q = n + 1 := by
  have hfl : ⌊q⌋ = n := Int.floor_eq_iff.2 ⟨h1, by linarith⟩
  rw [rndHalfEven, rat_floor_eq_floor, hfl]
  rw [if_neg (by linarith), if_pos (by linarith)]

theorem roundTo2_of_lt_half {q : ℚ} {n : ℤ} (h1 : (n : ℚ) ≤ q * 100)
    (h2 : q * 100 - n < 1/2) : roundTo2 q = (n : ℚ) / 100 := by
  rw [roundTo2, rndHalfEven_of_lt_half h1 h2]

theorem roundTo2_of_half_lt {q : ℚ} {n : ℤ} (h1 : (n : ℚ) ≤ q * 100)
    (h2 : 1/2 < q * 100 - n) (h3 : q * 100 < n + 1) :
    roundTo2 q = ((n : ℚ) + 1) / 100 := by
  rw [roundTo2, rndHalfEven_of_half_lt h1 h2 h3]
  push_cast
  ring

theorem rndHalfEven_intCast (n : ℤ) : rndHalfEven (n : ℚ) = n :=
  rndHalfEven_of_lt_half (le_refl _) (by norm_num)

theorem floor_le_rndHalfEven (q : ℚ) : ⌊q⌋ ≤ rndHalfEven q := by
  rw [rndHalfEven, rat_floor_eq_floor]
  split_ifs <;> omega

theorem rndHalfEven_le_floor_add_one (q : ℚ) : rndHalfEven q ≤ ⌊q⌋ + 1 := by
  rw [rndHalfEven, rat_floor_eq_floor]
  split_ifs <;> omega

theorem rndHalfEven_mono {a b : ℚ} (h : a ≤ b) :
    rndHalfEven a ≤ rndHalfEven b := by
  rcases lt_or_le ⌊a⌋ ⌊b⌋ with hf | hf
  · calc rndHalfEven a ≤ ⌊a⌋ + 1 := rndHalfEven_le_floor_add_one a
    _ ≤ ⌊b⌋ := by omega
    _ ≤ rndHalfEven b := floor_le_rndHalfEven b
  · have hf' : ⌊a⌋ = ⌊b⌋ := le_antisymm (Int.floor_le_floor h) hf
    rw [rndHalfEven, rndHalfEven, rat_floor_eq_floor, rat_floor_eq_floor, hf']
    split_ifs with h1 h2 h3 h4 h5 h6 h7 h8 <;> first | omega | linarith

theorem roundTo2_mono {a b : ℚ} (h : a ≤ b) : roundTo2 a ≤ roundTo2 b := by
  rw [roundTo2, roundTo2]
  have := rndHalfEven_mono (by linarith : a * 100 ≤ b * 100)
  have : ((rndHalfEven (a * 100) : ℚ)) ≤ (rndHalfEven (b * 100) : ℚ) := by
    exact_mod_cast this
  linarith

theorem roundTo2_zero : roundTo2 0 = 0 := by
  have : roundTo2 0 = ((0 : ℤ) : ℚ) / 100 :=
    roundTo2_of_lt_half (by norm_num) (by norm_num)
  simpa using this

theorem roundTo2_hundred : roundTo2 100 = 100 := by
  have : roundTo2 100 = ((10000 : ℤ) : ℚ) / 100 :=
    roundTo2_of_lt_half (by norm_num) (by norm_num)
  rw [this]
  norm_num

theorem roundTo2_nonneg {q : ℚ} (h : 0 ≤ q) : 0 ≤ roundTo2 q := by
  have := roundTo2_mono h
  rwa [roundTo2_zero] at this

theorem roundTo2_le_hundred {q : ℚ} (h : q ≤ 100) : roundTo2 q ≤ 100 := by
  have := roundTo2_mono h
  rwa [roundTo2_hundred] at this

theorem lt_rndHalfEven_add_one (q : ℚ) : q - 1 < (rndHalfEven q : ℚ) := by
  have h1 := floor_le_rndHalfEven q
  have h2 := Int.sub_one_lt_floor q
  have : ((⌊q⌋ : ℤ) : ℚ) ≤ (rndHalfEven q : ℚ) := by exact_mod_cast h1
  linarith

theorem roundTo2_gt (q : ℚ) : q - 1/100 < roundTo2 q := by
  rw [roundTo2]
  have := lt_rndHalfEven_add_one (q * 100)
  linarith

/-- EMI (equated monthly installment) calculation from
`backend/app/services/risk_engine.py`, `calculate_emi`.  The guard returns
`0` for non-positive principal or tenure before any division is reached;
a zero monthly rate gives straight-line `principal / tenure_months`
without rounding; otherwise the amortization formula, rounded to two
decimal places. -/
def calculate_emi (principal : ℚ) (tenure_months : ℤ) (annual_rate : ℚ) : ℚ :=
  if principal ≤ 0 ∨ tenure_months ≤ 0 then 0
  else
    if annual_rate / 12 / 100 = 0 then principal / (tenure_months : ℚ)
    else
      roundTo2 (principal * (annual_rate / 12 / 100) *
          (1 + annual_rate / 12 / 100) ^ tenure_months.toNat /
        ((1 + annual_rate / 12 / 100) ^ tenure_months.toNat - 1))

/-- Result dictionary of `calculate_risk_score`. -/
structure RiskResult where
  score : ℚ
  status : String
  emi : ℚ
  reasons : List String

/-- Python division: raises `ZeroDivisionError` on a zero divisor,
modelled as `Except.error`. -/
def pydiv (a b : ℚ) : Except String ℚ :=
  if b = 0 then Except.error "ZeroDivisionError" else Except.ok (a / b)

theorem pydiv_of_ne (a : ℚ) {b : ℚ} (hb : b ≠ 0) :
    pydiv a b = Except.ok (a / b) := if_neg hb

/-- Disposable-income tier of `calculate_risk_score` (risk_engine.py:
`if disposable_income > 0: ... > 0.70 -> +40, elif > 0.50 -> +25`),
returning the added points together with the appended reason. -/
def dispPart (total_emi disposable_income : ℚ) : ℚ × List String :=
  if disposable_income > 0 then
    if total_emi / disposable_income > 70/100 then
      (40, ["Total EMI share of disposable income is very high"])
    else if total_emi / disposable_income > 50/100 then
      (25, ["Total EMI share of disposable income is moderate"])
    else (0, [])
  else (0, [])

/-- DTI tier of `calculate_risk_score` (risk_engine.py:
`> 0.60 -> +50, elif > 0.40 -> +30, else healthy`). -/
def dtiPart (dtiR : ℚ) : ℚ × List String :=
  if dtiR > 60/100 then (50, ["Critical DTI above 60 percent"])
  else if dtiR > 40/100 then (30, ["High DTI above 40 percent"])
  else (0, ["Healthy DTI"])

/-- Expense tier of `calculate_risk_score` (risk_engine.py:
`expense_ratio > 0.70 -> +20`). -/
def expPart (expenseR : ℚ) : ℚ × List String :=
  if expenseR > 70/100 then (20, ["High expense share of income"]) else (0, [])

/-- Score of the non-short-circuit path of `calculate_risk_score`: the sum
of the three tier contributions, multiplied by 1.5 when DTI exceeds 0.5
and expenses exceed 80 percent of income. -/
def mainScore (total_emi disposable dtiR expenseR : ℚ) : ℚ :=
  if dtiR > 50/100 ∧ expenseR > 80/100 then
    ((dispPart total_emi disposable).1 + (dtiPart dtiR).1 +
        (expPart expenseR).1) * (3/2)
  else
    (dispPart total_emi disposable).1 + (dtiPart dtiR).1 + (expPart expenseR).1

/-- Reasons of the non-short-circuit path, in the order the source appends
them: existing-loan info, disposable tier, DTI tier, expense tier,
multiplier. -/
def mainReasons (existing_emi total_emi disposable dtiR expenseR : ℚ) :
    List String :=
  (if existing_emi > 0 then ["Existing loan EMIs per month"] else []) ++
    (dispPart total_emi disposable).2 ++ (dtiPart dtiR).2 ++
    (expPart expenseR).2 ++
    (if dtiR > 50/100 ∧ expenseR > 80/100 then
      ["Risk multiplier applied: High DTI and expenses"] else [])

/-- Result of the non-short-circuit path of `calculate_risk_score`: the
score is capped at 100, the status compares the capped (unrounded) score
with 50, and the returned score is rounded to two decimals. -/
def mainResult (new_emi existing_emi income expenses dtiR expenseR : ℚ) :
    RiskResult :=
  { score := roundTo2 (min 100
      (mainScore (new_emi + existing_emi) (income - expenses) dtiR expenseR))
    status := if min 100 (mainScore (new_emi + existing_emi)
        (income - expenses) dtiR expenseR) > 50 then "REJECTED"
      else "APPROVED"
    emi := new_emi
    reasons := mainReasons existing_emi (new_emi + existing_emi)
      (income - expenses) dtiR expenseR }

/-- Risk scoring from `backend/app/services/risk_engine.py`,
`calculate_risk_score`.  Non-positive income returns the maximal-risk
result before any division; otherwise the debt-to-income and expense
ratios are computed (the two divisions by `income`, modelled with
`pydiv`), the affordability short-circuit may return score 100, and
otherwise the tier scoring of `mainResult` applies. -/
def calculate_risk_score (amount : ℚ) (tenure_months : ℤ)
    (income expenses existing_emi : ℚ) : Except String RiskResult :=
  if income ≤ 0 then
    Except.ok
      { score := 100
        status := "REJECTED"
        emi := 0
        reasons := ["Invalid income: Income must be greater than zero"] }
  else
    match pydiv (calculate_emi amount tenure_months 12 + existing_emi) income,
        pydiv expenses income with
    | Except.error e, _ => Except.error e
    | Except.ok _, Except.error e => Except.error e
    | Except.ok dtiR, Except.ok expenseR =>
      if calculate_emi amount tenure_months 12 + existing_emi + expenses >
          income then
        if existing_emi > 0 then
          Except.ok
            { score := 100
              status := "REJECTED"
              emi := calculate_emi amount tenure_months 12
              reasons := ["Unaffordable: new EMI plus existing EMIs plus expenses exceeds monthly income",
                "Applicant cannot afford this loan along with existing loan obligations"] }
        else
          Except.ok
            { score := 100
              status := "REJECTED"
              emi := calculate_emi amount tenure_months 12
              reasons := ["Unaffordable: EMI plus expenses exceeds monthly income",
                "Applicant cannot afford this loan with current income and expenses"] }
      else
        Except.ok (mainResult (calculate_emi amount tenure_months 12)
          existing_emi income expenses dtiR expenseR)

/-- Sum of the discount factors of one rupee paid at the end of each of
`n` months at monthly rate `r`: the price of an `n`-month annuity.  The
amortization formula of `calculate_emi` equals `principal` divided by
this sum, which is the form in which its monotonicity is proved. -/
def annuityDenom (r : ℚ) (n : ℕ) : ℚ :=
  ∑ k in Finset.range n, ((1 + r)⁻¹) ^ (k + 1)

theorem annuityDenom_mul (r : ℚ) (hr : 0 < r) (n : ℕ) :
    annuityDenom r n * (r * (1 + r) ^ n) = (1 + r) ^ n - 1 := by
  have h1 : (1 + r) ≠ 0 := by linarith
  have hsum : annuityDenom r n * (1 + r) ^ n =
      ∑ j in Finset.range n, (1 + r) ^ j := by
    rw [annuityDenom, Finset.sum_mul, ← Finset.sum_range_reflect]
    refine Finset.sum_congr rfl ?_
    intro k hk
    have hk' : k < n := Finset.mem_range.1 hk
    rw [inv_pow, inv_mul_eq_div, div_eq_iff (pow_ne_zero _ h1), ← pow_add]
    congr 1
    omega
  calc annuityDenom r n * (r * (1 + r) ^ n)
      = (annuityDenom r n * (1 + r) ^ n) * r := by ring
    _ = (∑ j in Finset.range n, (1 + r) ^ j) * r := by rw [hsum]
    _ = (∑ j in Finset.range n, (1 + r) ^ j) * ((1 + r) - 1) := by ring_nf
    _ = (1 + r) ^ n - 1 := geom_sum_mul (1 + r) n

theorem annuityDenom_pos {r : ℚ} (hr : 0 ≤ r) {n : ℕ} (hn : 1 ≤ n) :
    0 < annuityDenom r n := by
  refine Finset.sum_pos ?_ ⟨0, Finset.mem_range.2 (by omega)⟩
  intro k _
  have : (0 : ℚ) < 1 + r := by linarith
  positivity

theorem annuityDenom_anti {r₁ r₂ : ℚ} (h1 : 0 ≤ r₁) (h : r₁ ≤ r₂) (n : ℕ) :
    annuityDenom r₂ n ≤ annuityDenom r₁ n := by
  refine Finset.sum_le_sum ?_
  intro k _
  have ha : (0 : ℚ) < 1 + r₁ := by linarith
  have hb : (1 : ℚ) + r₁ ≤ 1 + r₂ := by linarith
  have hinv : (1 + r₂)⁻¹ ≤ (1 + r₁)⁻¹ := by
    apply inv_anti₀ ha hb
  have hpos : (0 : ℚ) ≤ (1 + r₂)⁻¹ := by
    have : (0 : ℚ) < 1 + r₂ := by linarith
    positivity
  exact pow_le_pow_left₀ hpos hinv (k + 1)

theorem annuityDenom_mono_len {r : ℚ} (hr : 0 ≤ r) {n₁ n₂ : ℕ}
    (h : n₁ ≤ n₂) : annuityDenom r n₁ ≤ annuityDenom r n₂ := by
  refine Finset.sum_le_sum_of_subset_of_nonneg
    (Finset.range_subset.2 h) ?_
  intro k _ _
  have : (0 : ℚ) < 1 + r := by linarith
  positivity

theorem calculate_emi_of_pos {principal : ℚ} {tenure_months : ℤ}
    {annual_rate : ℚ} (hP : 0 < principal) (hT : 0 < tenure_months)
    (ha : 0 < annual_rate) :
    calculate_emi principal tenure_months annual_rate =
      roundTo2 (principal /
        annuityDenom (annual_rate / 12 / 100) tenure_months.toNat) := by
  have hr : (0 : ℚ) < annual_rate / 12 / 100 := by positivity
  have hn : 1 ≤ tenure_months.toNat := by omega
  rw [calculate_emi, if_neg (by push_neg; exact ⟨hP, hT⟩), if_neg (ne_of_gt hr)]
  congr 1
  have key := annuityDenom_mul _ hr tenure_months.toNat
  have hf1 : (1 : ℚ) < (1 + annual_rate / 12 / 100) ^ tenure_months.toNat :=
    one_lt_pow₀ (by linarith) (by omega)
  have hfne : (1 + annual_rate / 12 / 100) ^ tenure_months.toNat - 1 ≠ 0 :=
    ne_of_gt (by linarith)
  have hD := annuityDenom_pos hr.le hn
  rw [div_eq_div_iff hfne (ne_of_gt hD)]
  nlinarith [key]

theorem calculate_emi_zero_rate {principal : ℚ} {tenure_months : ℤ}
    (hP : 0 < principal) (hT : 0 < tenure_months) :
    calculate_emi principal tenure_months 0 =
      principal / (tenure_months : ℚ) := by
  rw [calculate_emi, if_neg (by push_neg; exact ⟨hP, hT⟩), if_pos (by norm_num)]

/-- Request body of `/admin/risk-analysis`.  The Pydantic class
`RiskAnalysisRequest` is imported by `admin.py` but missing from
`app/schemas.py`; the fields are read off their uses in the handler.
Ages and customer scores are integers, monetary amounts and employment
years rationals (Python floats), tenure an integer number of months. -/
structure RiskAnalysisRequest where
  age : ℤ
  annual_income : ℚ
  loan_amount_requested : ℚ
  loan_tenure_months : ℤ
  existing_loan_amount : ℚ
  employment_years : ℚ
  customer_score : ℤ
  monthly_expenses : ℚ
  has_expense_mismatch : Bool

/-- Response dictionary of `/admin/risk-analysis` (admin.py:464-475).
The Python keys `emi_to_income_ratio` and `debt_to_income_ratio` are
rendered here as `emi_to_income_pct` and `debt_to_income_pct`. -/
structure RiskAnalysisResponse where
  risk_score : ℚ
  risk_percentage : ℚ
  risk_category : String
  decision : String
  recommendation : String
  monthly_emi : ℚ
  emi_to_income_pct : ℚ
  debt_to_income_pct : ℚ
  max_recommended_loan : ℚ
  risk_factors : List String

/-- Age group of `analyze_risk` (admin.py:384-390): under 25 adds 10,
over 55 adds 8. -/
def ageFactor (age : ℤ) : ℚ × List String :=
  if age < 25 then (10, ["Young age (higher risk profile)"])
  else if age > 55 then (8, ["Age above 55 years"])
  else (0, [])

/-- Employment group of `analyze_risk` (admin.py:392-398): under 1 year
adds 20, under 3 years adds 10. -/
def employmentFactor (employment_years : ℚ) : ℚ × List String :=
  if employment_years < 1 then (20, ["Less than 1 year employment"])
  else if employment_years < 3 then (10, ["Less than 3 years employment"])
  else (0, [])

/-- Customer-score group of `analyze_risk` (admin.py:400-412). -/
def customerScoreFactor (customer_score : ℤ) : ℚ × List String :=
  if customer_score < 300 then (35, ["Very low customer score (below 300)"])
  else if customer_score < 500 then (25, ["Low customer score (below 500)"])
  else if customer_score < 650 then
    (15, ["Below average customer score (below 650)"])
  else if customer_score < 750 then (5, ["Average customer score"])
  else (0, [])

/-- EMI-burden group of `analyze_risk` (admin.py:414-423): ratio above 60
adds 30, above 50 adds 20, above 40 adds 10 (percent of monthly
income). -/
def emiBurdenFactor (emi_to_income : ℚ) : ℚ × List String :=
  if emi_to_income > 60 then (30, ["EMI to income too high"])
  else if emi_to_income > 50 then (20, ["High EMI to income"])
  else if emi_to_income > 40 then (10, ["Moderate EMI to income"])
  else (0, [])

/-- Loan-to-annual-income group of `analyze_risk` (admin.py:425-434). -/
def loanToIncomeFactor (loan_to_income : ℚ) : ℚ × List String :=
  if loan_to_income > 5 then (25, ["Loan amount above 5x annual income"])
  else if loan_to_income > 3 then (15, ["Loan amount above 3x annual income"])
  else if loan_to_income > 2 then (5, ["Loan amount above 2x annual income"])
  else (0, [])

/-- Expense-mismatch fraud indicator of `analyze_risk` (admin.py:436-439):
adds 20 points. -/
def mismatchFactor (has_expense_mismatch : Bool) : ℚ × List String :=
  if has_expense_mismatch then
    (20, ["Expense mismatch detected (potential fraud)"])
  else (0, [])

/-- The unrounded EMI computed inline by `analyze_risk` (admin.py:367-371)
at the fixed monthly rate `0.12 / 12`. -/
def adminEmi (r : RiskAnalysisRequest) : ℚ :=
  r.loan_amount_requested * (12/100/12) *
      (1 + 12/100/12) ^ r.loan_tenure_months.toNat /
    ((1 + 12/100/12) ^ r.loan_tenure_months.toNat - 1)

/-- EMI as a percentage of monthly income (admin.py:373-374). -/
def adminEmiToIncome (r : RiskAnalysisRequest) : ℚ :=
  adminEmi r / (r.annual_income / 12) * 100

/-- Total monthly debt as a percentage of monthly income
(admin.py:376-378). -/
def adminDebtToIncome (r : RiskAnalysisRequest) : ℚ :=
  (adminEmi r + r.existing_loan_amount / 12) / (r.annual_income / 12) * 100

/-- Requested loan over annual income (admin.py:426). -/
def adminLoanToIncome (r : RiskAnalysisRequest) : ℚ :=
  r.loan_amount_requested / r.annual_income

/-- Sum of the six group contributions of `analyze_risk`, before the cap
at 100. -/
def adminRawScore (r : RiskAnalysisRequest) : ℚ :=
  (ageFactor r.age).1 + (employmentFactor r.employment_years).1 +
    (customerScoreFactor r.customer_score).1 +
    (emiBurdenFactor (adminEmiToIncome r)).1 +
    (loanToIncomeFactor (adminLoanToIncome r)).1 +
    (mismatchFactor r.has_expense_mismatch).1

/-- Risk factors appended by the six groups of `analyze_risk`, in source
order. -/
def adminCollectedFactors (r : RiskAnalysisRequest) : List String :=
  (ageFactor r.age).2 ++ (employmentFactor r.employment_years).2 ++
    (customerScoreFactor r.customer_score).2 ++
    (emiBurdenFactor (adminEmiToIncome r)).2 ++
    (loanToIncomeFactor (adminLoanToIncome r)).2 ++
    (mismatchFactor r.has_expense_mismatch).2

/-- Risk score of `analyze_risk` after the cap
`risk_score = min(risk_score, 100)` (admin.py:442). -/
def adminRiskScore (r : RiskAnalysisRequest) : ℚ :=
  min (adminRawScore r) 100

/-- Category, decision and recommendation bands of `analyze_risk`
(admin.py:444-457): at most 25 is LOW and auto-approved, at most 50 is
MEDIUM with manual review, above 50 is HIGH and auto-rejected. -/
def classifyRisk (risk_score : ℚ) : String × String × String :=
  if risk_score ≤ 25 then
    ("LOW", "AUTO_APPROVE", "Low risk customer. Recommend immediate approval.")
  else if risk_score ≤ 50 then
    ("MEDIUM", "MANUAL_REVIEW",
      "Moderate risk. Manual verification recommended before approval.")
  else
    ("HIGH", "AUTO_REJECT",
      "High risk profile. Consider rejection or request additional documentation.")

/-- Maximum recommended loan computed by `analyze_risk` (admin.py:459-462):
40 percent of (monthly income minus monthly expenses), fed backwards
through the annuity factor.  Existing loans are not subtracted. -/
def adminMaxLoan (r : RiskAnalysisRequest) : ℚ :=
  (r.annual_income / 12 - r.monthly_expenses) * (4/10) *
      ((1 + 12/100/12) ^ r.loan_tenure_months.toNat - 1) /
    ((12/100/12) * (1 + 12/100/12) ^ r.loan_tenure_months.toNat)

/-- The `/admin/risk-analysis` handler `analyze_risk` (admin.py:350-476),
as the pure function from the validated request to the response
dictionary.  Ratios and the max loan are rounded to two decimals in the
response; the factors list falls back to a single neutral entry when no
rule triggered. -/
def analyze_risk (request : RiskAnalysisRequest) : RiskAnalysisResponse :=
  { risk_score := adminRiskScore request
    risk_percentage := adminRiskScore request
    risk_category := (classifyRisk (adminRiskScore request)).1
    decision := (classifyRisk (adminRiskScore request)).2.1
    recommendation := (classifyRisk (adminRiskScore request)).2.2
    monthly_emi := roundTo2 (adminEmi request)
    emi_to_income_pct := roundTo2 (adminEmiToIncome request)
    debt_to_income_pct := roundTo2 (adminDebtToIncome request)
    max_recommended_loan := roundTo2 (max (adminMaxLoan request) 0)
    risk_factors := if adminCollectedFactors request = [] then
        ["No significant risk factors identified"]
      else adminCollectedFactors request }

/-- Risk-category derivation used by the admin loans list
(admin.py:156-164) when a stored loan has a score but no category:
at most 30 is LOW, at most 60 is MEDIUM, above 60 is HIGH. -/
def deriveRiskCategory (score : ℚ) : String :=
  if score ≤ 30 then "LOW"
  else if score ≤ 60 then "MEDIUM"
  else "HIGH"

/-- Modelled from the spec (section 4.4), for comparison with the code:
the affordability reverse solver as the specification words it —
affordable installment `0.40 × monthlyIncome − existingLoanAnnual / 12`,
zero when non-positive, otherwise the inverted amortization formula,
rounded down to the nearest 1000 and floored at 0. -/
def specMaxRecommendedPrincipal (annualIncome existingLoanAnnual : ℚ)
    (tenureMonths : ℕ) (annualRatePercent : ℚ) : ℚ :=
  if (4/10) * (annualIncome / 12) - existingLoanAnnual / 12 ≤ 0 then 0
  else
    max (1000 * (⌊(if annualRatePercent / 12 / 100 = 0 then
        ((4/10) * (annualIncome / 12) - existingLoanAnnual / 12) *
          tenureMonths
      else
        ((4/10) * (annualIncome / 12) - existingLoanAnnual / 12) *
            ((1 + annualRatePercent / 12 / 100) ^ tenureMonths - 1) /
          (annualRatePercent / 12 / 100 *
            (1 + annualRatePercent / 12 / 100) ^ tenureMonths)) / 1000⌋ : ℚ))
      0

theorem int_toNat_twelve : (12 : ℤ).toNat = 12 := by simp

/-- A benign admin request: age 30, annual income 1,200,000, loan
100,000 over 12 months, no existing loans, 5 years employment, customer
score 800, expenses 30,000, no expense mismatch.  No scoring rule
triggers on it. -/
def benignReq : RiskAnalysisRequest :=
  ⟨30, 1200000, 100000, 12, 0, 5, 800, 30000, false⟩

/-- The benign request with the fraud flag set. -/
def c1req : RiskAnalysisRequest :=
  ⟨30, 1200000, 100000, 12, 0, 5, 800, 30000, true⟩

/-- A maximally risky request: age 20, annual income 120,000, loan
1,000,000 over 12 months, no employment history, customer score 250,
fraud flag set. -/
def c2req : RiskAnalysisRequest :=
  ⟨20, 120000, 1000000, 12, 0, 0, 250, 0, true⟩

/-- C1: the claim fails: on `c1req` the fraud flag is set, yet the
decision of `analyze_risk` is AUTO_APPROVE (the flag only adds 20 points
and every other group contributes 0, so the capped score is 20 ≤ 25). -/
theorem c1_counterexample :
    c1req.has_expense_mismatch = true ∧
      (analyze_risk c1req).decision ≠ "AUTO_REJECT" := by
  refine ⟨rfl, ?_⟩
  have h : (analyze_risk c1req).decision = "AUTO_APPROVE" := by
    norm_num [analyze_risk, adminRiskScore, adminRawScore, classifyRisk,
      ageFactor, employmentFactor, customerScoreFactor, emiBurdenFactor,
      loanToIncomeFactor, mismatchFactor, adminEmiToIncome, adminEmi,
      adminLoanToIncome, c1req, int_toNat_twelve]
  rw [h]
  decide

/-- C1 amended: the fraud flag contributes exactly 20 points to the raw
score of `analyze_risk`, and the decision is AUTO_REJECT exactly when the
capped risk score exceeds 50 — the flag alone does not force a
rejection. -/
theorem c1_amended (r : RiskAnalysisRequest) :
    (mismatchFactor true).1 = 20 ∧
    adminRawScore { r with has_expense_mismatch := true } =
      adminRawScore { r with has_expense_mismatch := false } + 20 ∧
    ((analyze_risk r).decision = "AUTO_REJECT" ↔
      50 < (analyze_risk r).risk_score) := by
  refine ⟨rfl, ?_, ?_⟩
  · simp only [adminRawScore, mismatchFactor, adminEmiToIncome, adminEmi,
      adminLoanToIncome]
    norm_num
  · show (classifyRisk (adminRiskScore r)).2.1 = "AUTO_REJECT" ↔
      50 < adminRiskScore r
    rw [classifyRisk]
    split_ifs with h1 h2
    · exact ⟨fun h => absurd h (by decide), fun h => absurd h (by linarith)⟩
    · exact ⟨fun h => absurd h (by decide), fun h => absurd h (by linarith)⟩
    · exact ⟨fun _ => by linarith, fun _ => rfl⟩

/-- C2: the claim fails: `analyze_risk` on `c2req` produces the capped
score 100, which is at least 70, yet the category is HIGH, not CRITICAL;
and the loans-list derivation maps 70 to HIGH as well — no CRITICAL
category exists in the code. -/
theorem c2_counterexample :
    70 ≤ (analyze_risk c2req).risk_score ∧
      (analyze_risk c2req).risk_category ≠ "CRITICAL" ∧
      deriveRiskCategory 70 ≠ "CRITICAL" := by
  have hs : (analyze_risk c2req).risk_score = 100 := by
    norm_num [analyze_risk, adminRiskScore, adminRawScore, ageFactor,
      employmentFactor, customerScoreFactor, emiBurdenFactor,
      loanToIncomeFactor, mismatchFactor, adminEmiToIncome, adminEmi,
      adminLoanToIncome, c2req, int_toNat_twelve]
  have hc : (analyze_risk c2req).risk_category = "HIGH" := by
    show (classifyRisk (adminRiskScore c2req)).1 = "HIGH"
    have : adminRiskScore c2req = 100 := hs
    rw [this, classifyRisk, if_neg (by norm_num), if_neg (by norm_num)]
  refine ⟨by rw [hs]; norm_num, by rw [hc]; decide, ?_⟩
  rw [deriveRiskCategory, if_neg (by norm_num), if_neg (by norm_num)]
  decide

/-- C2 amended: the actual bands.  `analyze_risk` classifies a capped
score of at most 25 as LOW with AUTO_APPROVE, at most 50 as MEDIUM with
MANUAL_REVIEW, and above 50 as HIGH with AUTO_REJECT; the loans-list
derivation maps at most 30 to LOW, at most 60 to MEDIUM and above 60 to
HIGH; neither mapping has a CRITICAL band. -/
theorem c2_amended (s : ℚ) (r : RiskAnalysisRequest) :
    (s ≤ 25 → classifyRisk s = ("LOW", "AUTO_APPROVE",
      "Low risk customer. Recommend immediate approval.")) ∧
    (25 < s → s ≤ 50 → classifyRisk s = ("MEDIUM", "MANUAL_REVIEW",
      "Moderate risk. Manual verification recommended before approval.")) ∧
    (50 < s → classifyRisk s = ("HIGH", "AUTO_REJECT",
      "High risk profile. Consider rejection or request additional documentation.")) ∧
    (s ≤ 30 → deriveRiskCategory s = "LOW") ∧
    (30 < s → s ≤ 60 → deriveRiskCategory s = "MEDIUM") ∧
    (60 < s → deriveRiskCategory s = "HIGH") ∧
    (analyze_risk r).risk_category = (classifyRisk (adminRiskScore r)).1 := by
  refine ⟨?_, ?_, ?_, ?_, ?_, ?_, rfl⟩
  · intro h
    rw [classifyRisk, if_pos h]
  · intro h1 h2
    rw [classifyRisk, if_neg (by linarith), if_pos h2]
  · intro h
    rw [classifyRisk, if_neg (by linarith), if_neg (by linarith)]
  · intro h
    rw [deriveRiskCategory, if_pos h]
  · intro h1 h2
    rw [deriveRiskCategory, if_neg (by linarith), if_pos h2]
  · intro h
    rw [deriveRiskCategory, if_neg (by linarith), if_neg (by linarith)]

/-- Witness for the amended C2 at concrete scores 20, 40 and 70. -/
theorem c2_witness :
    classifyRisk 20 = ("LOW", "AUTO_APPROVE",
      "Low risk customer. Recommend immediate approval.") ∧
    classifyRisk 40 = ("MEDIUM", "MANUAL_REVIEW",
      "Moderate risk. Manual verification recommended before approval.") ∧
    classifyRisk 70 = ("HIGH", "AUTO_REJECT",
      "High risk profile. Consider rejection or request additional documentation.") ∧
    deriveRiskCategory 20 = "LOW" ∧ deriveRiskCategory 40 = "MEDIUM" ∧
    deriveRiskCategory 70 = "HIGH" :=
  ⟨(c2_amended 20 benignReq).1 (by norm_num),
    (c2_amended 40 benignReq).2.1 (by norm_num) (by norm_num),
    (c2_amended 70 benignReq).2.2.1 (by norm_num),
    (c2_amended 20 benignReq).2.2.2.1 (by norm_num),
    (c2_amended 40 benignReq).2.2.2.2.1 (by norm_num) (by norm_num),
    (c2_amended 70 benignReq).2.2.2.2.2.1 (by norm_num)⟩

/-- C6: the claim fails: an EMI-to-income ratio of 55 percent is above
50 percent, but the EMI-burden group of `analyze_risk` adds 20 points,
not the 30 the claim asserts (the +30 tier starts above 60 percent). -/
theorem c6_counterexample :
    (50 : ℚ) < 55 ∧ (emiBurdenFactor 55).1 = 20 ∧
      (emiBurdenFactor 55).1 ≠ 30 := by
  norm_num [emiBurdenFactor]

/-- C6 amended: the EMI-burden group adds exactly one tier, first match
from most severe, at the code's thresholds: above 60 percent adds 30,
above 50 adds 20, above 40 adds 10, otherwise 0. -/
theorem c6_amended (p : ℚ) :
    (60 < p → (emiBurdenFactor p).1 = 30) ∧
    (50 < p → p ≤ 60 → (emiBurdenFactor p).1 = 20) ∧
    (40 < p → p ≤ 50 → (emiBurdenFactor p).1 = 10) ∧
    (p ≤ 40 → (emiBurdenFactor p).1 = 0) := by
  refine ⟨?_, ?_, ?_, ?_⟩
  · intro h
    rw [emiBurdenFactor, if_pos h]
  · intro h1 h2
    rw [emiBurdenFactor, if_neg (by linarith), if_pos h1]
  · intro h1 h2
    rw [emiBurdenFactor, if_neg (by linarith), if_neg (by linarith),
      if_pos h1]
  · intro h
    rw [emiBurdenFactor, if_neg (by linarith), if_neg (by linarith),
      if_neg (by linarith)]

/-- Witness for the amended C6 at ratios in each tier. -/
theorem c6_witness :
    (emiBurdenFactor 70).1 = 30 ∧ (emiBurdenFactor 56).1 = 20 ∧
      (emiBurdenFactor 45).1 = 10 ∧ (emiBurdenFactor 30).1 = 0 :=
  ⟨(c6_amended 70).1 (by norm_num),
    (c6_amended 56).2.1 (by norm_num) (by norm_num),
    (c6_amended 45).2.2.1 (by norm_num) (by norm_num),
    (c6_amended 30).2.2.2 (by norm_num)⟩

/-- C8: `calculate_emi` returns exactly 0 for non-positive principal or
tenure; the guard precedes every division, so no error is reached. -/
theorem c8_theorem (principal : ℚ) (tenure_months : ℤ) (annual_rate : ℚ)
    (h : principal ≤ 0 ∨ tenure_months ≤ 0) :
    calculate_emi principal tenure_months annual_rate = 0 := by
  rw [calculate_emi, if_pos h]

/-- Witness for C8 at zero principal and at zero tenure. -/
theorem c8_witness :
    calculate_emi 0 12 12 = 0 ∧ calculate_emi 100000 0 12 = 0 :=
  ⟨c8_theorem 0 12 12 (Or.inl le_rfl), c8_theorem 100000 0 12 (Or.inr le_rfl)⟩

/-- C9: at a zero annual rate the monthly rate is exactly zero and
`calculate_emi` returns exactly `principal / tenure`, with no rounding
applied on this branch. -/
theorem c9_theorem (principal : ℚ) (tenure_months : ℤ)
    (hP : 0 < principal) (hT : 0 < tenure_months) :
    calculate_emi principal tenure_months 0 =
      principal / (tenure_months : ℚ) := by
  rw [calculate_emi, if_neg (by push_neg; exact ⟨hP, hT⟩), if_pos (by norm_num)]

/-- Witness for C9: a 100-unit loan over 4 months at rate 0 costs exactly
25 a month. -/
theorem c9_witness : calculate_emi 100 4 0 = 25 := by
  have h := c9_theorem 100 4 (by norm_num) (by norm_num)
  norm_num at h
  exact h

theorem int_toNat_three : (3 : ℤ).toNat = 3 := by simp

/-- C7: the rate-monotonicity part of the claim fails at the zero-rate
boundary: a 301-unit loan over 3 months costs exactly 301/3 ≈ 100.3333 a
month at rate 0, but at the tiny positive annual rate 0.001 percent the
two-decimal rounding brings the installment down to 100.33, which is
strictly smaller. -/
theorem c7_counterexample :
    (0 : ℚ) ≤ 1/1000 ∧
      ¬ calculate_emi 301 3 0 ≤ calculate_emi 301 3 (1/1000) := by
  have h0 : calculate_emi 301 3 0 = 301 / 3 := by
    rw [calculate_emi, if_neg (by norm_num), if_pos (by norm_num)]
    norm_num
  have h1 : calculate_emi 301 3 (1/1000) = 10033 / 100 := by
    rw [calculate_emi, if_neg (by norm_num), if_neg (by norm_num)]
    simp only [int_toNat_three]
    rw [@roundTo2_of_lt_half _ 10033 (by norm_num) (by norm_num)]
    norm_num
  rw [h0, h1]
  norm_num

/-- C7 amended: `calculate_emi` is monotonically non-decreasing in the
annual rate on positive rates (the original claim over all rates at least
zero fails at the boundary by at most one cent of rounding), and
monotonically non-increasing in the tenure for every non-negative
rate. -/
theorem c7_amended (principal : ℚ) (tenure tenure₁ tenure₂ : ℤ)
    (rate₁ rate₂ rate : ℚ) :
    (0 < principal → 0 < tenure → 0 < rate₁ → rate₁ ≤ rate₂ →
      calculate_emi principal tenure rate₁ ≤
        calculate_emi principal tenure rate₂) ∧
    (0 < principal → 0 < tenure₁ → tenure₁ ≤ tenure₂ → 0 ≤ rate →
      calculate_emi principal tenure₂ rate ≤
        calculate_emi principal tenure₁ rate) := by
  constructor
  · intro hP hT h1 h12
    have h2 : 0 < rate₂ := lt_of_lt_of_le h1 h12
    rw [calculate_emi_of_pos hP hT h1, calculate_emi_of_pos hP hT h2]
    apply roundTo2_mono
    have hr1 : (0 : ℚ) < rate₁ / 12 / 100 := by positivity
    have hn : 1 ≤ tenure.toNat := by omega
    have hD2 : 0 < annuityDenom (rate₂ / 12 / 100) tenure.toNat :=
      annuityDenom_pos (by positivity) hn
    have hanti : annuityDenom (rate₂ / 12 / 100) tenure.toNat ≤
        annuityDenom (rate₁ / 12 / 100) tenure.toNat :=
      annuityDenom_anti hr1.le (by linarith) _
    exact div_le_div_of_nonneg_left hP.le hD2 hanti
  · intro hP hT1 hT12 hr
    have hT2 : 0 < tenure₂ := lt_of_lt_of_le hT1 hT12
    rcases eq_or_lt_of_le hr with heq | hpos
    · have hrate : rate = 0 := heq.symm
      subst hrate
      rw [calculate_emi_zero_rate hP hT2, calculate_emi_zero_rate hP hT1]
      have h1 : (0 : ℚ) < (tenure₁ : ℚ) := by exact_mod_cast hT1
      have h12 : (tenure₁ : ℚ) ≤ (tenure₂ : ℚ) := by exact_mod_cast hT12
      exact div_le_div_of_nonneg_left hP.le h1 h12
    · rw [calculate_emi_of_pos hP hT1 hpos, calculate_emi_of_pos hP hT2 hpos]
      apply roundTo2_mono
      have hn1 : 1 ≤ tenure₁.toNat := by omega
      have hD1 : 0 < annuityDenom (rate / 12 / 100) tenure₁.toNat :=
        annuityDenom_pos (by positivity) hn1
      have hmono : annuityDenom (rate / 12 / 100) tenure₁.toNat ≤
          annuityDenom (rate / 12 / 100) tenure₂.toNat :=
        annuityDenom_mono_len (by positivity) (by omega)
      exact div_le_div_of_nonneg_left hP.le hD1 hmono

/-- Witness for the amended C7: raising the rate from 12 to 24 percent
does not lower the installment of a 100,000-unit, 12-month loan, and
stretching that loan from 12 to 24 months does not raise it. -/
theorem c7_witness :
    calculate_emi 100000 12 12 ≤ calculate_emi 100000 12 24 ∧
      calculate_emi 100000 24 12 ≤ calculate_emi 100000 12 12 :=
  ⟨(c7_amended 100000 12 12 24 12 24 12).1 (by norm_num) (by norm_num)
      (by norm_num) (by norm_num),
    (c7_amended 100000 12 12 24 12 24 12).2 (by norm_num) (by norm_num)
      (by norm_num) (by norm_num)⟩

/-- The benign request with an existing annual loan burden of 120,000 and
no monthly expenses. -/
def c3req : RiskAnalysisRequest :=
  ⟨30, 1200000, 100000, 12, 120000, 5, 800, 0, false⟩

/-- C3: the claim fails on two counts.  On `benignReq` the returned
maximum recommended loan is 315,142.17, not a multiple of 1,000 (the code
rounds to two decimals, not down to the nearest 1,000); and on `c3req`
the code result 450,203.10 differs from the 337,000 the specified
formula gives, because the code computes the affordable installment as
40 percent of (monthly income minus expenses) and ignores existing
loans. -/
theorem c3_counterexample :
    (¬ ∃ k : ℤ, (analyze_risk benignReq).max_recommended_loan =
        1000 * (k : ℚ)) ∧
      (analyze_risk c3req).max_recommended_loan ≠
        specMaxRecommendedPrincipal 1200000 120000 12 12 := by
  have hv : (analyze_risk benignReq).max_recommended_loan =
      31514217 / 100 := by
    show roundTo2 (max (adminMaxLoan benignReq) 0) = 31514217 / 100
    rw [max_eq_left (by norm_num [adminMaxLoan, benignReq, int_toNat_twelve])]
    rw [@roundTo2_of_half_lt _ 31514216
      (by norm_num [adminMaxLoan, benignReq, int_toNat_twelve])
      (by norm_num [adminMaxLoan, benignReq, int_toNat_twelve])
      (by norm_num [adminMaxLoan, benignReq, int_toNat_twelve])]
    norm_num
  have hw : (analyze_risk c3req).max_recommended_loan = 4502031 / 10 := by
    show roundTo2 (max (adminMaxLoan c3req) 0) = 4502031 / 10
    rw [max_eq_left (by norm_num [adminMaxLoan, c3req, int_toNat_twelve])]
    rw [@roundTo2_of_half_lt _ 45020309
      (by norm_num [adminMaxLoan, c3req, int_toNat_twelve])
      (by norm_num [adminMaxLoan, c3req, int_toNat_twelve])
      (by norm_num [adminMaxLoan, c3req, int_toNat_twelve])]
    norm_num
  have hs : specMaxRecommendedPrincipal 1200000 120000 12 12 = 337000 := by
    rw [specMaxRecommendedPrincipal, if_neg (by norm_num)]
    rw [if_neg (by norm_num : ¬ ((12 : ℚ) / 12 / 100 = 0))]
    rw [show (⌊((4/10 : ℚ) * (1200000 / 12) - 120000 / 12) *
          ((1 + 12 / 12 / 100) ^ (12 : ℕ) - 1) /
          (12 / 12 / 100 * (1 + 12 / 12 / 100) ^ (12 : ℕ)) / 1000⌋ : ℤ) = 337
      from Int.floor_eq_iff.2 ⟨by norm_num, by norm_num⟩]
    norm_num
  refine ⟨?_, ?_⟩
  · rintro ⟨k, hk⟩
    rw [hv] at hk
    have h1 : (31514217 : ℚ) = 100000 * (k : ℚ) := by linarith
    have h2 : (31514217 : ℤ) = 100000 * k := by exact_mod_cast h1
    omega
  · rw [hw, hs]
    norm_num

/-- C3 amended: the code's maximum recommended loan is 40 percent of
(monthly income minus monthly expenses) fed through the inverse annuity
factor, floored at 0 and rounded to two decimals; it is therefore always
non-negative, and it is 0 whenever expenses reach monthly income. -/
theorem c3_amended (r : RiskAnalysisRequest) :
    0 ≤ (analyze_risk r).max_recommended_loan ∧
      (r.annual_income / 12 - r.monthly_expenses ≤ 0 →
        (analyze_risk r).max_recommended_loan = 0) := by
  constructor
  · show 0 ≤ roundTo2 (max (adminMaxLoan r) 0)
    exact roundTo2_nonneg (le_max_right _ _)
  · intro h
    show roundTo2 (max (adminMaxLoan r) 0) = 0
    have h2 : (0 : ℚ) ≤
        (1 + 12/100/12) ^ r.loan_tenure_months.toNat - 1 := by
      have h3 : (1 : ℚ) ≤ (1 + 12/100/12) ^ r.loan_tenure_months.toNat :=
        one_le_pow₀ (by norm_num)
      linarith
    have hml : adminMaxLoan r ≤ 0 := by
      rw [adminMaxLoan]
      apply div_nonpos_of_nonpos_of_nonneg
      · exact mul_nonpos_of_nonpos_of_nonneg (by linarith) h2
      · positivity
    rw [max_eq_right hml, roundTo2_zero]

/-- Witness for the amended C3: a request whose expenses (20,000) exceed
the monthly income (10,000) gets a zero maximum recommended loan. -/
def c3wreq : RiskAnalysisRequest :=
  ⟨30, 120000, 100000, 12, 0, 5, 800, 20000, false⟩

theorem c3_witness :
    0 ≤ (analyze_risk c3wreq).max_recommended_loan ∧
      (analyze_risk c3wreq).max_recommended_loan = 0 :=
  ⟨(c3_amended c3wreq).1, (c3_amended c3wreq).2 (by norm_num [c3wreq])⟩

theorem dispPart_fst_nonneg (t d : ℚ) : 0 ≤ (dispPart t d).1 := by
  rw [dispPart]
  split_ifs <;> norm_num

theorem dtiPart_fst_nonneg (x : ℚ) : 0 ≤ (dtiPart x).1 := by
  rw [dtiPart]
  split_ifs <;> norm_num

theorem expPart_fst_nonneg (x : ℚ) : 0 ≤ (expPart x).1 := by
  rw [expPart]
  split_ifs <;> norm_num

theorem dtiPart_snd_ne_nil (x : ℚ) : (dtiPart x).2 ≠ [] := by
  rw [dtiPart]
  split_ifs <;> simp

theorem mainScore_nonneg (t d x y : ℚ) : 0 ≤ mainScore t d x y := by
  have h1 := dispPart_fst_nonneg t d
  have h2 := dtiPart_fst_nonneg x
  have h3 := expPart_fst_nonneg y
  rw [mainScore]
  split_ifs <;> linarith

theorem mainReasons_ne_nil (e t d x y : ℚ) : mainReasons e t d x y ≠ [] := by
  rw [mainReasons]
  intro h
  simp only [List.append_eq_nil] at h
  exact dtiPart_snd_ne_nil x h.1.1.2

theorem calculate_risk_score_ok (amount : ℚ) (tenure_months : ℤ)
    (income expenses existing_emi : ℚ) :
    ∃ out, calculate_risk_score amount tenure_months income expenses
        existing_emi = Except.ok out ∧
      0 ≤ out.score ∧ out.score ≤ 100 ∧ out.reasons ≠ [] := by
  rw [calculate_risk_score]
  by_cases h : income ≤ 0
  · rw [if_pos h]
    exact ⟨_, rfl, by norm_num, by norm_num, by simp⟩
  · rw [if_neg h]
    have hne : income ≠ 0 := fun he => h (le_of_eq he)
    rw [pydiv_of_ne _ hne, pydiv_of_ne _ hne]
    dsimp only
    split_ifs with h1 h2
    · exact ⟨_, rfl, by norm_num, by norm_num, by simp⟩
    · exact ⟨_, rfl, by norm_num, by norm_num, by simp⟩
    · refine ⟨_, rfl, ?_, ?_, ?_⟩
      · exact roundTo2_nonneg (le_min (by norm_num) (mainScore_nonneg _ _ _ _))
      · exact roundTo2_le_hundred (min_le_left _ _)
      · exact mainReasons_ne_nil _ _ _ _ _

/-- C4: `calculate_risk_score` never reaches a division error — it
always returns a structured result — and every input with non-positive
income takes the early branch that returns the maximally risky structured
result (score 100, REJECTED) before any division. -/
theorem c4_theorem (amount : ℚ) (tenure_months : ℤ)
    (income expenses existing_emi : ℚ) :
    (∃ out, calculate_risk_score amount tenure_months income expenses
        existing_emi = Except.ok out) ∧
      (income ≤ 0 →
        calculate_risk_score amount tenure_months income expenses
            existing_emi =
          Except.ok ⟨100, "REJECTED", 0,
            ["Invalid income: Income must be greater than zero"]⟩) := by
  constructor
  · obtain ⟨out, hout, -⟩ :=
      calculate_risk_score_ok amount tenure_months income expenses existing_emi
    exact ⟨out, hout⟩
  · intro h
    rw [calculate_risk_score, if_pos h]

/-- Witness for C4 at zero income. -/
theorem c4_witness :
    (0 : ℚ) ≤ 0 ∧ calculate_risk_score 100000 12 0 5000 0 =
      Except.ok ⟨100, "REJECTED", 0,
        ["Invalid income: Income must be greater than zero"]⟩ :=
  ⟨le_refl 0, (c4_theorem 100000 12 0 5000 0).2 (le_refl 0)⟩

theorem ageFactor_fst_nonneg (a : ℤ) : 0 ≤ (ageFactor a).1 := by
  rw [ageFactor]
  split_ifs <;> norm_num

theorem employmentFactor_fst_nonneg (y : ℚ) : 0 ≤ (employmentFactor y).1 := by
  rw [employmentFactor]
  split_ifs <;> norm_num

theorem customerScoreFactor_fst_nonneg (s : ℤ) :
    0 ≤ (customerScoreFactor s).1 := by
  rw [customerScoreFactor]
  split_ifs <;> norm_num

theorem emiBurdenFactor_fst_nonneg (p : ℚ) : 0 ≤ (emiBurdenFactor p).1 := by
  rw [emiBurdenFactor]
  split_ifs <;> norm_num

theorem loanToIncomeFactor_fst_nonneg (l : ℚ) :
    0 ≤ (loanToIncomeFactor l).1 := by
  rw [loanToIncomeFactor]
  split_ifs <;> norm_num

theorem mismatchFactor_fst_nonneg (b : Bool) : 0 ≤ (mismatchFactor b).1 := by
  rw [mismatchFactor]
  split_ifs <;> norm_num

theorem adminRawScore_nonneg (r : RiskAnalysisRequest) :
    0 ≤ adminRawScore r := by
  have h1 := ageFactor_fst_nonneg r.age
  have h2 := employmentFactor_fst_nonneg r.employment_years
  have h3 := customerScoreFactor_fst_nonneg r.customer_score
  have h4 := emiBurdenFactor_fst_nonneg (adminEmiToIncome r)
  have h5 := loanToIncomeFactor_fst_nonneg (adminLoanToIncome r)
  have h6 := mismatchFactor_fst_nonneg r.has_expense_mismatch
  rw [adminRawScore]
  linarith

/-- C5: the risk score of the admin endpoint lies in [0, 100] and its
factors list is never empty, falling back to the single neutral entry
when no rule triggers; and every structured result of
`calculate_risk_score` has a score in [0, 100] and a non-empty reasons
list. -/
theorem c5_theorem (r : RiskAnalysisRequest) (amount : ℚ)
    (tenure_months : ℤ) (income expenses existing_emi : ℚ)
    (out : RiskResult) :
    (0 ≤ (analyze_risk r).risk_score ∧ (analyze_risk r).risk_score ≤ 100 ∧
      (analyze_risk r).risk_factors ≠ [] ∧
      (adminCollectedFactors r = [] →
        (analyze_risk r).risk_factors =
          ["No significant risk factors identified"])) ∧
    (calculate_risk_score amount tenure_months income expenses existing_emi =
        Except.ok out →
      0 ≤ out.score ∧ out.score ≤ 100 ∧ out.reasons ≠ []) := by
  constructor
  · refine ⟨?_, ?_, ?_, ?_⟩
    · exact le_min (adminRawScore_nonneg r) (by norm_num)
    · exact min_le_right _ _
    · show (if adminCollectedFactors r = [] then
          ["No significant risk factors identified"]
        else adminCollectedFactors r) ≠ []
      split_ifs with h
      · simp
      · exact h
    · intro h
      show (if adminCollectedFactors r = [] then
          ["No significant risk factors identified"]
        else adminCollectedFactors r) =
        ["No significant risk factors identified"]
      rw [if_pos h]
  · intro hout
    obtain ⟨out', hout', hb1, hb2, hb3⟩ :=
      calculate_risk_score_ok amount tenure_months income expenses existing_emi
    rw [hout] at hout'
    injection hout' with he
    subst he
    exact ⟨hb1, hb2, hb3⟩

/-- C10: with positive income, when the new EMI plus existing EMIs plus
expenses strictly exceeds income, `calculate_risk_score` short-circuits:
it returns exactly score 100, status REJECTED and the computed new EMI,
so none of the later scoring rules can influence the outcome. -/
theorem c10_theorem (amount : ℚ) (tenure_months : ℤ)
    (income expenses existing_emi : ℚ) (hinc : 0 < income)
    (hun : calculate_emi amount tenure_months 12 + existing_emi + expenses >
      income) :
    calculate_risk_score amount tenure_months income expenses existing_emi =
      Except.ok ⟨100, "REJECTED", calculate_emi amount tenure_months 12,
        if existing_emi > 0 then
          ["Unaffordable: new EMI plus existing EMIs plus expenses exceeds monthly income",
            "Applicant cannot afford this loan along with existing loan obligations"]
        else
          ["Unaffordable: EMI plus expenses exceeds monthly income",
            "Applicant cannot afford this loan with current income and expenses"]⟩ := by
  rw [calculate_risk_score, if_neg (by linarith),
    pydiv_of_ne _ (ne_of_gt hinc), pydiv_of_ne _ (ne_of_gt hinc)]
  dsimp only
  rw [if_pos hun]
  split_ifs with h
  · rfl
  · rfl

theorem emi_100000_eval : calculate_emi 100000 12 12 = 222122 / 25 := by
  rw [calculate_emi, if_neg (by norm_num), if_neg (by norm_num)]
  simp only [int_toNat_twelve]
  rw [@roundTo2_of_half_lt _ 888487 (by norm_num) (by norm_num) (by norm_num)]
  norm_num

theorem emi_500000_eval : calculate_emi 500000 12 12 = 4442439 / 100 := by
  rw [calculate_emi, if_neg (by norm_num), if_neg (by norm_num)]
  simp only [int_toNat_twelve]
  rw [@roundTo2_of_lt_half _ 4442439 (by norm_num) (by norm_num)]
  norm_num

theorem calc_example_eval :
    calculate_risk_score 100000 12 50000 20000 0 =
      Except.ok ⟨0, "APPROVED", 222122 / 25, ["Healthy DTI"]⟩ := by
  rw [calculate_risk_score, if_neg (by norm_num),
    pydiv_of_ne _ (by norm_num), pydiv_of_ne _ (by norm_num)]
  dsimp only
  rw [emi_100000_eval]
  rw [if_neg (by norm_num)]
  norm_num [mainResult, mainScore, mainReasons, dispPart, dtiPart, expPart,
    min_def, roundTo2_zero]

/-- Witness for C5: on `benignReq` no rule triggers and the fallback
factors list is returned; and the concrete engine run on a 100,000-unit,
12-month loan with income 50,000 and expenses 20,000 yields a structured
result with score 0 in range and a non-empty reasons list. -/
theorem c5_witness :
    (analyze_risk benignReq).risk_factors =
        ["No significant risk factors identified"] ∧
      (0 ≤ (RiskResult.mk 0 "APPROVED" (222122 / 25) ["Healthy DTI"]).score ∧
        (RiskResult.mk 0 "APPROVED" (222122 / 25) ["Healthy DTI"]).score ≤ 100 ∧
        (RiskResult.mk 0 "APPROVED" (222122 / 25) ["Healthy DTI"]).reasons ≠ []) :=
  ⟨(c5_theorem benignReq 100000 12 50000 20000 0
        ⟨0, "APPROVED", 222122 / 25, ["Healthy DTI"]⟩).1.2.2.2
      (by norm_num [adminCollectedFactors, ageFactor, employmentFactor,
        customerScoreFactor, emiBurdenFactor, loanToIncomeFactor,
        mismatchFactor, adminEmiToIncome, adminEmi, adminLoanToIncome,
        benignReq, int_toNat_twelve]),
    (c5_theorem benignReq 100000 12 50000 20000 0
        ⟨0, "APPROVED", 222122 / 25, ["Healthy DTI"]⟩).2 calc_example_eval⟩

/-- Witness for C10: a 500,000-unit loan over 12 months against income
30,000 and expenses 25,000 is unaffordable and short-circuits to the
score-100 rejection. -/
theorem c10_witness :
    calculate_risk_score 500000 12 30000 25000 0 =
      Except.ok ⟨100, "REJECTED", calculate_emi 500000 12 12,
        ["Unaffordable: EMI plus expenses exceeds monthly income",
          "Applicant cannot afford this loan with current income and expenses"]⟩ := by
  have h := c10_theorem 500000 12 30000 25000 0 (by norm_num)
    (by rw [emi_500000_eval]; norm_num)
  rw [if_neg (by norm_num : ¬ ((0 : ℚ) > 0))] at h
  exact h
